import Mathlib

/-!
Shallow embedding of the instance relocation engine (`cmdMove.Run` and
`cmdMove.moveInstance` from `cmd/lxc-to-incus/main_migrate.go`) together with
the map-merge primitives it uses (`maps.Copy` over Go string maps).

Go `map[string]string` values are modelled as insertion-ordered association
lists (`KV`): Go's `m[k] = v` is `setKey` (replace in place, else append), and
a Go map read is the first-match lookup `lookupKV` (the two agree because
`setKey` keeps at most one binding per key for maps built by assignment).
Network effects are modelled by an oracle environment `Env`: each remote call
made by the code appends an `Action` to a trace and reads its outcome from the
environment, so the theorems can speak both about the result and about which
calls were or were not issued.
-/

deriving instance DecidableEq for Except

namespace IncusMove

/-- Go `map[string]string`, as an insertion-ordered association list. -/
abbrev KV := List (String × String)

/-- Go `map[string]map[string]string`. -/
abbrev DevMap := List (String × KV)

/-- Go map read `m[k]` on a string-keyed association list: first matching
binding (there is at most one for maps built by `setA`). -/
def lookupA {α : Type} : List (String × α) → String → Option α
  | [], _ => none
  | (k, v) :: rest, key => if k = key then some v else lookupA rest key

/-- Go map assignment `m[k] = v` on a string-keyed association list: replace
the binding in place when the key is present, otherwise append a new one (a
Go map holds at most one binding per key, so every list this embedding builds
is duplicate-free and the two readings agree). -/
def setA {α : Type} : List (String × α) → String → α → List (String × α)
  | [], k, v => [(k, v)]
  | (k1, v1) :: rest, k, v =>
    if k1 = k then (k, v) :: rest else (k1, v1) :: setA rest k v

/-- Go map read `m[k]` for a `KV` map. -/
abbrev lookupKV (m : KV) (key : String) : Option String := lookupA m key

/-- Go map read `m[k]` for a `DevMap`. -/
abbrev lookupDev (m : DevMap) (key : String) : Option KV := lookupA m key

/-- Go map assignment `m[k] = v` on a `KV`. -/
abbrev setKey (m : KV) (k v : String) : KV := setA m k v

/-- Go map assignment `m[k] = v` on a `DevMap`. -/
abbrev setDev (m : DevMap) (k : String) (v : KV) : DevMap := setA m k v

/-- Go `maps.Copy(dst, src)`: assign every binding of `src` into `dst`,
in order. This is the device-override merge of `cmdMove.moveInstance`. -/
def mapsCopy (dst src : KV) : KV :=
  src.foldl (fun d p => setKey d p.1 p.2) dst

/-- The value a sequence of Go map assignments leaves for `key`: the last
binding in the list wins (matches `lookupKV` after the list is folded into a
map with `setKey`). -/
def lastLookup : KV → String → Option String
  | [], _ => none
  | (k, v) :: rest, key =>
    match lastLookup rest key with
    | some v2 => some v2
    | none => if k = key then some v else none

/-- Go `strings.Cut(s, sep)` for a one-character separator: split at the
first occurrence, or `none` when the separator does not occur. -/
def cutOn (sep : Char) (s : String) : Option (String × String) :=
  match s.data.splitOn sep with
  | [] => none
  | [_] => none
  | a :: rest => some (a.asString, (List.intercalate [sep] rest).asString)

/-- Modelled from the spec: `conf.ParseRemote` (the Endpoint Resolver) is not
part of the provided sources; per §4.1 it parses `[<remote>:]<instance>` into
a remote and an instance name, failing with `MalformedReference` when the
token contains more than one `:`-delimited remote separator. An absent remote
part resolves to the default remote. -/
def parseRemote (defaultRemote : String) (s : String) : Except String (String × String) :=
  match s.data.splitOn ':' with
  | [] => .ok (defaultRemote, "")
  | [n] => .ok (defaultRemote, n.asString)
  | [r, n] => .ok (r.asString, n.asString)
  | _ => .error s

/-- Modelled from the spec: `parseDeviceOverrides` is not part of the provided
sources; per §3 the DeviceOverrideSet is built fresh from the CLI input, each
`--device` entry naming a device and one key/value pair
(`<device>,<key>=<value>`), entries without a device separator or a key/value
separator being rejected. -/
def parseDeviceOverrides (entries : List String) : Except String DevMap :=
  entries.foldlM
    (fun acc entry =>
      match cutOn ',' entry with
      | none => .error entry
      | some (devName, rest) =>
        match cutOn '=' rest with
        | none => .error entry
        | some (k, v) =>
          .ok (setDev acc devName (setKey ((lookupDev acc devName).getD []) k v)))
    []

/-- The config-override parsing loop of `cmdMove.moveInstance`: each entry is
cut at the first `=`; an entry with no `=` is a bad key=value pair. -/
def parseConfigEntries (entries : List String) : Except String KV :=
  entries.foldlM
    (fun acc entry =>
      match cutOn '=' entry with
      | none => .error entry
      | some (k, v) => .ok (setKey acc k v))
    []

/-- An instance as fetched from the server; only the expanded devices matter
to the relocation engine. -/
structure Instance where
  expandedDevices : DevMap
  deriving Repr, DecidableEq

/-- The `api.InstancePost` request body staged by `cmdMove.moveInstance`.
`profiles`/`config`/`devices` are `none` when the Go code leaves the field
`nil` (no override requested). -/
structure InstancePost where
  name : String
  migration : Bool
  instanceOnly : Bool
  pool : String
  project : String
  live : Bool
  profiles : Option (List String)
  config : Option KV
  devices : Option DevMap
  deriving Repr, DecidableEq

/-- One remote call issued by the relocation engine, as recorded in the
execution trace. -/
inductive Action where
  | connect (remote : String)
  | renameCall (name newName : String)
  | getInstanceCall (name : String)
  | migrateCall (name : String) (req : InstancePost)
  | copyCall (sourceResource destResource : String) (stateful instanceOnly : Bool)
      (mode storagePool : String)
  | deleteCall (resource : String)
  deriving Repr, DecidableEq

/-- The error results `cmdMove.Run` / `cmdMove.moveInstance` can return, one
constructor per distinct error site (bare propagation and each distinct
wrapping message get their own kind). -/
inductive MoveError where
  | argCount
  | parseError (tok : String)
  | localRenameOverride
  | connectError (e : String)
  | renameError (e : String)
  | copyError (e : String)
  | deleteAfterCopyError (e : String)
  | noSourceName
  | connectClusterError (e : String)
  | targetNeedsCluster
  | badKeyValuePair (entry : String)
  | deviceOverrideError (entry : String)
  | getInstanceError (e : String)
  | migrationAPIFailure (e : String)
  | addHandlerError (e : String)
  | migrationOperationFailure (e : String)
  deriving Repr, DecidableEq

/-- Terminal outcome of a run: normal return, returned error, or a Go runtime
panic (which aborts the process rather than returning). -/
inductive Outcome where
  | ok
  | err (e : MoveError)
  | panicked (msg : String)
  deriving Repr, DecidableEq

/-- The connection handle returned by `conf.GetInstanceServer`, with the
outcomes of the calls the engine makes through it. Each call is made at most
once per run, so outcomes are recorded as constants. -/
structure Server where
  hasExtension : String → Bool
  isClustered : Bool
  getInstanceResult : Except String Instance
  renameResult : Except String Unit
  migrateResult : Except String Unit
  addHandlerResult : Except String Unit
  waitResult : Except String Unit

/-- The oracle environment: connection provider plus the outcomes of the two
external sub-commands the copy path delegates to (`cmdCopy.copyInstance` and
`cmdDelete.Run`, which are outside the provided sources and are abstracted as
call results). -/
structure Env where
  defaultRemote : String
  getInstanceServer : String → Except String Server
  copyResult : Except String Unit
  deleteResult : Except String Unit

/-- Default migration mode when moving an instance (`moveDefaultMode`). -/
def moveDefaultMode : String := "pull"

/-- The flag set of `cmdMove`. `nil` string slices are the empty list. -/
structure MoveFlags where
  flagNoProfiles : Bool
  flagProfile : List String
  flagConfig : List String
  flagInstanceOnly : Bool
  flagDevice : List String
  flagMode : String
  flagStateless : Bool
  flagStorage : String
  flagTarget : String
  flagTargetProject : String
  flagAllowInconsistent : Bool
  deriving Repr, DecidableEq

/-- The device-staging loop of `cmdMove.moveInstance` (`for devName, dev :=
range deviceMap`), accumulating `req.Devices` in `acc`. For each override,
`fullDev := inst.ExpandedDevices[devName]` is read; when the device is absent
that read yields a nil map and `maps.Copy(fullDev, dev)` panics on the first
assignment when `dev` is non-empty (Go: assignment to entry in nil map); an
empty override stages the nil map unchanged. -/
def stageDevices (expanded : DevMap) : DevMap → DevMap → Except String DevMap
  | [], acc => .ok acc
  | (devName, dev) :: rest, acc =>
    match lookupDev expanded devName with
    | none =>
      if dev.isEmpty then stageDevices expanded rest (setDev acc devName [])
      else .error "assignment to entry in nil map"
    | some fullDev => stageDevices expanded rest (setDev acc devName (mapsCopy fullDev dev))

/-- Submission and supervision of the migration `Operation` in
`cmdMove.moveInstance`: `MigrateInstance` (wrapped as a Migration API
failure), `op.AddHandler` (propagated bare), then `cli.CancelableWait`
(wrapped as a Migration operation failure). -/
def migratePhase (source : Server) (tr : List Action) (sourceName : String)
    (req : InstancePost) : List Action × Outcome :=
  let tr := tr ++ [.migrateCall sourceName req]
  match source.migrateResult with
  | .error e => (tr, .err (.migrationAPIFailure e))
  | .ok _ =>
    match source.addHandlerResult with
    | .error e => (tr, .err (.addHandlerError e))
    | .ok _ =>
      match source.waitResult with
      | .error e => (tr, .err (.migrationOperationFailure e))
      | .ok _ => (tr, .ok)

/-- `cmdMove.moveInstance`: the server-side move executor. Parses both
resources, substitutes the source name for an empty destination name, connects
to the source host, rejects `--target` against a non-clustered server, stages
the profile/config/device overrides into an `api.InstancePost`, and submits
the migration. -/
def moveInstance (flags : MoveFlags) (env : Env) (sourceResource destResource : String)
    (stateful : Bool) : List Action × Outcome :=
  match parseRemote env.defaultRemote sourceResource with
  | .error t => ([], .err (.parseError t))
  | .ok (sourceRemote, sourceName) =>
    match parseRemote env.defaultRemote destResource with
    | .error t => ([], .err (.parseError t))
    | .ok (_, dn) =>
      if sourceName = "" then ([], .err .noSourceName)
      else
        let destName := if dn = "" then sourceName else dn
        match env.getInstanceServer sourceRemote with
        | .error e => ([.connect sourceRemote], .err (.connectClusterError e))
        | .ok source =>
          if source.isClustered = false ∧ flags.flagTarget ≠ "" then
            ([.connect sourceRemote], .err .targetNeedsCluster)
          else
            let profiles : Option (List String) :=
              if flags.flagProfile ≠ [] then some flags.flagProfile
              else if flags.flagNoProfiles then some [] else none
            let req : InstancePost :=
              { name := destName, migration := true,
                instanceOnly := flags.flagInstanceOnly, pool := flags.flagStorage,
                project := flags.flagTargetProject, live := stateful,
                profiles := profiles, config := none, devices := none }
            match (if flags.flagConfig ≠ [] then
                     (parseConfigEntries flags.flagConfig).map some
                   else .ok none) with
            | .error entry => ([.connect sourceRemote], .err (.badKeyValuePair entry))
            | .ok config =>
              let req := { req with config := config }
              if flags.flagDevice ≠ [] then
                match parseDeviceOverrides flags.flagDevice with
                | .error entry => ([.connect sourceRemote], .err (.deviceOverrideError entry))
                | .ok deviceMap =>
                  match source.getInstanceResult with
                  | .error e =>
                    ([.connect sourceRemote, .getInstanceCall sourceName],
                     .err (.getInstanceError e))
                  | .ok inst =>
                    match stageDevices inst.expandedDevices deviceMap [] with
                    | .error msg =>
                      ([.connect sourceRemote, .getInstanceCall sourceName], .panicked msg)
                    | .ok devs =>
                      migratePhase source [.connect sourceRemote, .getInstanceCall sourceName]
                        sourceName { req with devices := some devs }
              else
                migratePhase source [.connect sourceRemote] sourceName req

/-- The `isServerSide` closure of `cmdMove.Run`: same remote, default transfer
mode, and every requested override supported by the source server's extension
flags; connecting to the server happens inside the closure and is recorded in
the returned trace. -/
def isServerSide (flags : MoveFlags) (env : Env) (sourceRemote destRemote : String) :
    List Action × Bool :=
  if sourceRemote ≠ destRemote then ([], false)
  else if flags.flagMode ≠ moveDefaultMode then ([], false)
  else
    match env.getInstanceServer sourceRemote with
    | .error _ => ([.connect sourceRemote], false)
    | .ok source =>
      ([.connect sourceRemote],
       if source.hasExtension "instance_move_config" = false ∧
          (flags.flagConfig ≠ [] ∨ flags.flagDevice ≠ [] ∨ flags.flagProfile ≠ []) then
         false
       else if flags.flagStorage ≠ "" ∧ source.hasExtension "instance_pool_move" = false then
         false
       else if flags.flagTargetProject ≠ "" ∧
               source.hasExtension "instance_project_move" = false then
         false
       else true)

/-- The tail of `cmdMove.Run` after argument parsing: the local-rename branch,
then the `isServerSide` decision, dispatching to `moveInstance` or to the
copy-then-delete path (`cmdCopy.copyInstance` followed by `cmdDelete.Run`,
the latter wrapped as a failure to delete the original instance). -/
def runParsed (flags : MoveFlags) (env : Env) (sourceResource destResource : String)
    (sr sn dr dn : String) : List Action × Outcome :=
  if sr = dr ∧ flags.flagTarget = "" ∧ flags.flagStorage = "" ∧
     flags.flagTargetProject = "" then
    if flags.flagConfig ≠ [] ∨ flags.flagDevice ≠ [] ∨ flags.flagProfile ≠ [] ∨
       flags.flagNoProfiles = true then
      ([], .err .localRenameOverride)
    else
      match env.getInstanceServer sr with
      | .error e => ([.connect sr], .err (.connectError e))
      | .ok source =>
        ([.connect sr, .renameCall sn dn],
         match source.renameResult with
         | .error e => .err (.renameError e)
         | .ok _ => .ok)
  else
    let stateful := !flags.flagStateless
    let issv := isServerSide flags env sr dr
    if issv.2 then
      let mi := moveInstance flags env sourceResource destResource stateful
      (issv.1 ++ mi.1, mi.2)
    else
      let mode := if flags.flagMode ≠ "" then flags.flagMode else moveDefaultMode
      let tr := issv.1 ++
        [.copyCall sourceResource destResource stateful flags.flagInstanceOnly mode
          flags.flagStorage]
      match env.copyResult with
      | .error e => (tr, .err (.copyError e))
      | .ok _ =>
        let tr := tr ++ [.deleteCall sourceResource]
        match env.deleteResult with
        | .error e => (tr, .err (.deleteAfterCopyError e))
        | .ok _ => (tr, .ok)

/-- `cmdMove.Run`: argument-count checks (exactly two resources unless a
target member, storage pool or target project is given), resource parsing,
then `runParsed`. With a single argument the destination resource is the
source resource and the destination name is empty. -/
def run (flags : MoveFlags) (env : Env) (args : List String) : List Action × Outcome :=
  match args with
  | [a1] =>
    if flags.flagTarget = "" ∧ flags.flagTargetProject = "" ∧ flags.flagStorage = "" then
      ([], .err .argCount)
    else
      match parseRemote env.defaultRemote a1 with
      | .error t => ([], .err (.parseError t))
      | .ok (sr, sn) => runParsed flags env a1 a1 sr sn sr ""
  | [a1, a2] =>
    match parseRemote env.defaultRemote a1 with
    | .error t => ([], .err (.parseError t))
    | .ok (sr, sn) =>
      match parseRemote env.defaultRemote a2 with
      | .error t => ([], .err (.parseError t))
      | .ok (dr, dn) => runParsed flags env a1 a2 sr sn dr dn
  | _ => ([], .err .argCount)

/-- Is this action the source-delete call? -/
def Action.isDelete : Action → Bool
  | .deleteCall _ => true
  | _ => false

/-- Is this action the copy call of the client-mediated path? -/
def Action.isCopy : Action → Bool
  | .copyCall _ _ _ _ _ _ => true
  | _ => false

/-- Is this action a migration submission? -/
def Action.isMigrate : Action → Bool
  | .migrateCall _ _ => true
  | _ => false

/-- Is this action a rename call? -/
def Action.isRename : Action → Bool
  | .renameCall _ _ => true
  | _ => false

/-- Trace predicate: some source-delete call occurs. -/
def hasDelete (tr : List Action) : Bool := tr.any Action.isDelete

/-- Trace predicate: some copy call occurs (the run took the client-mediated
copy path). -/
def hasCopy (tr : List Action) : Bool := tr.any Action.isCopy

/-- Trace predicate: some migration submission occurs (the run took the
server-side move path). -/
def hasMigrate (tr : List Action) : Bool := tr.any Action.isMigrate

/-- Trace predicate: some rename call occurs. -/
def hasRename (tr : List Action) : Bool := tr.any Action.isRename

/-- Is this outcome a returned error (as opposed to a normal return or a
runtime panic)? -/
def Outcome.isErr : Outcome → Bool
  | .err _ => true
  | _ => false

/-- A flag set with every flag at its default (used to build concrete
scenarios; cobra's default for `--mode` is `pull`). -/
def exFlags : MoveFlags :=
  { flagNoProfiles := false, flagProfile := [], flagConfig := [],
    flagInstanceOnly := false, flagDevice := [], flagMode := "pull",
    flagStateless := false, flagStorage := "", flagTarget := "",
    flagTargetProject := "", flagAllowInconsistent := false }

/-- A concrete clustered server that supports every extension and answers
every call successfully; its one instance has a single `root` disk device. -/
def exServer : Server :=
  { hasExtension := fun _ => true, isClustered := true,
    getInstanceResult := .ok { expandedDevices := [("root", [("type", "disk"), ("path", "/")])] },
    renameResult := .ok (), migrateResult := .ok (), addHandlerResult := .ok (),
    waitResult := .ok () }

/-- A concrete server that advertises no extension flags at all. -/
def exBareServer : Server :=
  { exServer with hasExtension := fun _ => false }

/-- A concrete environment in which every remote call succeeds. -/
def exEnv : Env :=
  { defaultRemote := "local", getInstanceServer := fun _ => .ok exServer,
    copyResult := .ok (), deleteResult := .ok () }

/-- The environment whose only reachable server lacks every extension. -/
def exBareEnv : Env :=
  { exEnv with getInstanceServer := fun _ => .ok exBareServer }

theorem lookupA_setA {α : Type} (m : List (String × α)) (k : String) (v : α) (key : String) :
    lookupA (setA m k v) key = if key = k then some v else lookupA m key := by
  induction m with
  | nil =>
    by_cases h : key = k
    · simp [setA, lookupA, h]
    · have hne : ¬k = key := fun hk => h hk.symm
      simp [setA, lookupA, h, hne]
  | cons p rest ih =>
    obtain ⟨k1, v1⟩ := p
    by_cases h1 : k1 = k
    · subst h1
      by_cases h2 : key = k1
      · simp [setA, lookupA, h2]
      · have hne : ¬k1 = key := fun hk => h2 hk.symm
        simp [setA, lookupA, h2, hne]
    · by_cases h2 : k1 = key
      · have h1' : ¬key = k := h2 ▸ h1
        simp [setA, lookupA, h1, h2, h1']
      · simp [setA, lookupA, h1, h2, ih]

theorem lookupKV_mapsCopy (src dst : KV) (key : String) :
    lookupKV (mapsCopy dst src) key =
      match lastLookup src key with
      | some v => some v
      | none => lookupKV dst key := by
  induction src generalizing dst with
  | nil => rfl
  | cons p rest ih =>
    obtain ⟨k, v⟩ := p
    show lookupKV (mapsCopy (setKey dst k v) rest) key = _
    rw [ih]
    simp only [lastLookup]
    cases hr : lastLookup rest key with
    | some v2 => rfl
    | none =>
      by_cases h : key = k
      · simp [lookupKV, setKey, lookupA_setA, h]
      · have hne : ¬k = key := fun hk => h hk.symm
        simp [lookupKV, setKey, lookupA_setA, h, hne]

theorem lookupDev_setDev (m : DevMap) (k : String) (v : KV) (key : String) :
    lookupDev (setDev m k v) key = if key = k then some v else lookupDev m key :=
  lookupA_setA m k v key

/-- Devices already staged are not touched by staging further overrides for
other device names. -/
theorem stageDevices_preserves (expanded : DevMap) (rest acc staged : DevMap)
    (devName : String) (hmem : devName ∉ rest.map Prod.fst)
    (hok : stageDevices expanded rest acc = .ok staged) :
    lookupDev staged devName = lookupDev acc devName := by
  induction rest generalizing acc with
  | nil =>
    simp only [stageDevices] at hok
    cases hok
    rfl
  | cons p tail ih =>
    obtain ⟨d, dev⟩ := p
    simp only [List.map_cons, List.mem_cons, not_or] at hmem
    obtain ⟨hne, hmem'⟩ := hmem
    simp only [stageDevices] at hok
    have hset : ∀ x, lookupDev (setDev acc d x) devName = lookupDev acc devName := by
      intro x
      simp [setDev, lookupA_setA, hne]
    cases hexp : lookupDev expanded d with
    | none =>
      rw [hexp] at hok
      by_cases hdev : dev.isEmpty
      · rw [if_pos hdev] at hok
        rw [ih _ hmem' hok, hset]
      · rw [if_neg hdev] at hok
        cases hok
    | some fullDev =>
      rw [hexp] at hok
      rw [ih _ hmem' hok, hset]

/-- When staging succeeds, each overridden device present in the expanded
devices is staged as `maps.Copy` of the override onto its expanded map. -/
theorem stageDevices_ok_lookup (expanded : DevMap) (dm acc staged : DevMap)
    (devName : String) (ov full : KV)
    (hnodup : (dm.map Prod.fst).Nodup)
    (hok : stageDevices expanded dm acc = .ok staged)
    (hov : lookupDev dm devName = some ov)
    (hfull : lookupDev expanded devName = some full) :
    lookupDev staged devName = some (mapsCopy full ov) := by
  induction dm generalizing acc with
  | nil => simp [lookupA] at hov
  | cons p rest ih =>
    obtain ⟨d, dev⟩ := p
    simp only [List.map_cons, List.nodup_cons] at hnodup
    obtain ⟨hd, hnodup'⟩ := hnodup
    simp only [stageDevices] at hok
    by_cases hname : d = devName
    · subst hname
      have hov' : ov = dev := by
        simp [lookupA] at hov
        exact hov.symm
      subst hov'
      rw [hfull] at hok
      rw [stageDevices_preserves expanded rest _ staged d hd hok]
      simp [setDev, lookupA_setA]
    · have hov' : lookupDev rest devName = some ov := by
        simpa [lookupA, hname] using hov
      cases hexp : lookupDev expanded d with
      | none =>
        rw [hexp] at hok
        by_cases hdev : dev.isEmpty
        · rw [if_pos hdev] at hok
          exact ih _ hnodup' hok hov'
        · rw [if_neg hdev] at hok
          cases hok
      | some fullDev =>
        rw [hexp] at hok
        exact ih _ hnodup' hok hov'

theorem hasDelete_append (t1 t2 : List Action) :
    hasDelete (t1 ++ t2) = (hasDelete t1 || hasDelete t2) := List.any_append

theorem hasCopy_append (t1 t2 : List Action) :
    hasCopy (t1 ++ t2) = (hasCopy t1 || hasCopy t2) := List.any_append

theorem hasMigrate_append (t1 t2 : List Action) :
    hasMigrate (t1 ++ t2) = (hasMigrate t1 || hasMigrate t2) := List.any_append

theorem migratePhase_fst (s : Server) (tr : List Action) (n : String) (r : InstancePost) :
    (migratePhase s tr n r).1 = tr ++ [.migrateCall n r] := by
  unfold migratePhase
  rcases s.migrateResult with e | u <;> rcases s.addHandlerResult with e2 | u2 <;>
    rcases s.waitResult with e3 | u3 <;> simp

theorem moveInstance_hasCopy (flags : MoveFlags) (env : Env) (s d : String) (st : Bool) :
    hasCopy (moveInstance flags env s d st).1 = false := by
  unfold moveInstance
  repeat'
    (split <;>
      try simp [hasCopy, Action.isCopy, migratePhase_fst, List.any_append])

theorem moveInstance_hasDelete (flags : MoveFlags) (env : Env) (s d : String) (st : Bool) :
    hasDelete (moveInstance flags env s d st).1 = false := by
  unfold moveInstance
  repeat'
    (split <;>
      try simp [hasDelete, Action.isDelete, migratePhase_fst, List.any_append])

theorem isServerSide_trace (flags : MoveFlags) (env : Env) (sr dr : String) :
    (isServerSide flags env sr dr).1 = [] ∨ (isServerSide flags env sr dr).1 = [.connect sr] := by
  unfold isServerSide
  repeat' (split <;> try simp)

theorem hasCopy_nil : hasCopy [] = false := rfl

theorem hasCopy_cons (a : Action) (tr : List Action) :
    hasCopy (a :: tr) = (Action.isCopy a || hasCopy tr) := rfl

theorem hasDelete_nil : hasDelete [] = false := rfl

theorem hasDelete_cons (a : Action) (tr : List Action) :
    hasDelete (a :: tr) = (Action.isDelete a || hasDelete tr) := rfl

theorem hasMigrate_nil : hasMigrate [] = false := rfl

theorem hasMigrate_cons (a : Action) (tr : List Action) :
    hasMigrate (a :: tr) = (Action.isMigrate a || hasMigrate tr) := rfl

/-- On the client-mediated copy path, the delete is issued exactly when the
copy succeeded, and a copy error is returned as-is with no delete issued. -/
theorem runParsed_copy_facts (flags : MoveFlags) (env : Env) (a1 a2 sr sn dr dn : String) :
    (hasCopy (runParsed flags env a1 a2 sr sn dr dn).1 = true →
      (hasDelete (runParsed flags env a1 a2 sr sn dr dn).1 = true ↔ env.copyResult = .ok ())) ∧
    (∀ e, env.copyResult = .error e →
      hasCopy (runParsed flags env a1 a2 sr sn dr dn).1 = true →
      (runParsed flags env a1 a2 sr sn dr dn).2 = .err (.copyError e) ∧
      hasDelete (runParsed flags env a1 a2 sr sn dr dn).1 = false) := by
  rcases isServerSide_trace flags env sr dr with hi | hi <;>
    cases h2 : (isServerSide flags env sr dr).2 <;>
    unfold runParsed <;>
    (repeat' split) <;>
    simp_all [hasCopy_nil, hasCopy_cons, hasCopy_append, hasDelete_nil, hasDelete_cons,
      hasDelete_append, Action.isCopy, Action.isDelete, moveInstance_hasCopy,
      moveInstance_hasDelete]

/-- A successful copy followed by a failed delete reports the wrapped
delete-after-copy error. -/
theorem runParsed_delete_fail (flags : MoveFlags) (env : Env) (a1 a2 sr sn dr dn : String)
    (e : String) (hcopy : env.copyResult = .ok ()) (hdel : env.deleteResult = .error e)
    (hc : hasCopy (runParsed flags env a1 a2 sr sn dr dn).1 = true) :
    (runParsed flags env a1 a2 sr sn dr dn).2 = .err (.deleteAfterCopyError e) := by
  rcases isServerSide_trace flags env sr dr with hi | hi <;>
    cases h2 : (isServerSide flags env sr dr).2 <;>
    unfold runParsed at hc ⊢ <;>
    (repeat' split) <;>
    simp_all [hasCopy_nil, hasCopy_cons, hasCopy_append, Action.isCopy, moveInstance_hasCopy]

/-- Every run either issues no remote call at all (argument or parse errors)
or behaves as `runParsed` on the parsed resources. -/
theorem run_cases (flags : MoveFlags) (env : Env) (args : List String) :
    (run flags env args).1 = [] ∨
    ∃ a1 a2 sr sn dr dn, run flags env args = runParsed flags env a1 a2 sr sn dr dn := by
  rcases args with _ | ⟨a1, _ | ⟨a2, rest⟩⟩
  · left; rfl
  · simp only [run]
    split
    · left; rfl
    · cases hp : parseRemote env.defaultRemote a1 with
      | error t => simp [hp]
      | ok p =>
        obtain ⟨sr, sn⟩ := p
        right
        exact ⟨a1, a1, sr, sn, sr, "", by simp [hp]⟩
  · rcases rest with _ | ⟨a3, rest⟩
    · simp only [run]
      cases hp1 : parseRemote env.defaultRemote a1 with
      | error t => simp [hp1]
      | ok p =>
        obtain ⟨sr, sn⟩ := p
        cases hp2 : parseRemote env.defaultRemote a2 with
        | error t => simp [hp1, hp2]
        | ok q =>
          obtain ⟨dr, dn⟩ := q
          right
          exact ⟨a1, a2, sr, sn, dr, dn, by simp [hp1, hp2]⟩
    · left; rfl

/-- A two-argument run with both resources parsing reduces to `runParsed`. -/
theorem run_two (flags : MoveFlags) (env : Env) (a1 a2 sr sn dr dn : String)
    (hp1 : parseRemote env.defaultRemote a1 = .ok (sr, sn))
    (hp2 : parseRemote env.defaultRemote a2 = .ok (dr, dn)) :
    run flags env [a1, a2] = runParsed flags env a1 a2 sr sn dr dn := by
  simp [run, hp1, hp2]

/-- C1: in `cmdMove.Run`'s copy-then-delete path, the source-delete command is
issued if and only if `copyInstance` succeeded; when the copy fails (or is
cancelled, surfacing as an error), the delete is never run and the copy error
is returned to the caller unchanged, leaving the source untouched. -/
theorem run_deleteIffCopySuccess (flags : MoveFlags) (env : Env) (args : List String) :
    (hasCopy (run flags env args).1 = true →
      (hasDelete (run flags env args).1 = true ↔ env.copyResult = .ok ())) ∧
    (∀ e, env.copyResult = .error e →
      hasCopy (run flags env args).1 = true →
      (run flags env args).2 = .err (.copyError e) ∧
      hasDelete (run flags env args).1 = false) := by
  rcases run_cases flags env args with h | ⟨a1, a2, sr, sn, dr, dn, h⟩
  · constructor
    · intro hc
      rw [h] at hc
      simp [hasCopy_nil] at hc
    · intro e _ hc
      rw [h] at hc
      simp [hasCopy_nil] at hc
  · rw [h]
    exact runParsed_copy_facts flags env a1 a2 sr sn dr dn

/-- Witness for C1: a concrete cross-remote move whose copy phase fails with
"boom" returns the copy error and issues no delete. -/
theorem run_deleteIffCopySuccess_witness :
    ({ exEnv with copyResult := .error "boom" } : Env).copyResult = .error "boom" ∧
    hasCopy (run exFlags { exEnv with copyResult := .error "boom" } ["r1:c1", "r2:c1"]).1 = true ∧
    ((run exFlags { exEnv with copyResult := .error "boom" } ["r1:c1", "r2:c1"]).2 =
        .err (.copyError "boom") ∧
      hasDelete (run exFlags { exEnv with copyResult := .error "boom" } ["r1:c1", "r2:c1"]).1 =
        false) :=
  ⟨rfl, by decide,
    (run_deleteIffCopySuccess exFlags { exEnv with copyResult := .error "boom" }
      ["r1:c1", "r2:c1"]).2 "boom" rfl (by decide)⟩

/-- C2: when the copy phase succeeds and the source delete then fails, the run
returns the delete error wrapped in the distinct delete-after-copy
classification, which is distinguishable by kind from any copy-phase error. -/
theorem run_deleteFailureDistinct (flags : MoveFlags) (env : Env) (args : List String)
    (e : String) (hcopy : env.copyResult = .ok ()) (hdel : env.deleteResult = .error e)
    (hc : hasCopy (run flags env args).1 = true) :
    (run flags env args).2 = .err (.deleteAfterCopyError e) ∧
    ∀ e2 : String, (MoveError.deleteAfterCopyError e) ≠ .copyError e2 := by
  refine ⟨?_, fun e2 => by simp⟩
  rcases run_cases flags env args with h | ⟨a1, a2, sr, sn, dr, dn, h⟩
  · rw [h] at hc
    simp [hasCopy_nil] at hc
  · rw [h] at hc ⊢
    exact runParsed_delete_fail flags env a1 a2 sr sn dr dn e hcopy hdel hc

/-- Witness for C2: a concrete cross-remote move with a successful copy and a
failing delete reports the wrapped delete-after-copy error. -/
theorem run_deleteFailureDistinct_witness :
    ({ exEnv with deleteResult := .error "dboom" } : Env).copyResult = .ok () ∧
    ({ exEnv with deleteResult := .error "dboom" } : Env).deleteResult = .error "dboom" ∧
    hasCopy (run exFlags { exEnv with deleteResult := .error "dboom" } ["r1:c1", "r2:c1"]).1 =
      true ∧
    ((run exFlags { exEnv with deleteResult := .error "dboom" } ["r1:c1", "r2:c1"]).2 =
        .err (.deleteAfterCopyError "dboom") ∧
      ∀ e2 : String, (MoveError.deleteAfterCopyError "dboom") ≠ .copyError e2) :=
  ⟨rfl, rfl, by decide,
    run_deleteFailureDistinct exFlags { exEnv with deleteResult := .error "dboom" }
      ["r1:c1", "r2:c1"] "dboom" rfl rfl (by decide)⟩

/-- The local-rename branch of `cmdMove.Run`: same remote and no
target/storage/project, no overrides, a successful connect. -/
theorem runParsed_rename (flags : MoveFlags) (env : Env) (a1 a2 sr sn dr dn : String)
    (srv : Server) (hsame : sr = dr) (ht : flags.flagTarget = "")
    (hs : flags.flagStorage = "") (hpj : flags.flagTargetProject = "")
    (hc : flags.flagConfig = []) (hd : flags.flagDevice = [])
    (hpr : flags.flagProfile = []) (hn : flags.flagNoProfiles = false)
    (hconn : env.getInstanceServer sr = .ok srv) :
    runParsed flags env a1 a2 sr sn dr dn =
      ([.connect sr, .renameCall sn dn],
        match srv.renameResult with
        | .error e => .err (.renameError e)
        | .ok _ => .ok) := by
  unfold runParsed
  rw [if_pos ⟨hsame, ht, hs, hpj⟩, if_neg (by simp [hc, hd, hpr, hn]), hconn]

/-- C5: a request whose two resources resolve to the same connection, with no
target member, storage pool or target project and no config/device/profile
override, takes the rename strategy: the run is exactly one connect plus one
rename call (no copy, migration or delete ever happens) and returns the rename
call's outcome. -/
theorem run_renameStrategy (flags : MoveFlags) (env : Env) (a1 a2 r sn dn : String)
    (srv : Server)
    (hp1 : parseRemote env.defaultRemote a1 = .ok (r, sn))
    (hp2 : parseRemote env.defaultRemote a2 = .ok (r, dn))
    (ht : flags.flagTarget = "") (hs : flags.flagStorage = "")
    (hpj : flags.flagTargetProject = "") (hc : flags.flagConfig = [])
    (hd : flags.flagDevice = []) (hpr : flags.flagProfile = [])
    (hn : flags.flagNoProfiles = false)
    (hconn : env.getInstanceServer r = .ok srv) :
    run flags env [a1, a2] =
      ([.connect r, .renameCall sn dn],
        match srv.renameResult with
        | .error e => .err (.renameError e)
        | .ok _ => .ok) := by
  rw [run_two flags env a1 a2 r sn r dn hp1 hp2]
  exact runParsed_rename flags env a1 a2 r sn r dn srv rfl ht hs hpj hc hd hpr hn hconn

/-- Witness for C5: a concrete local rename issues exactly the connect and the
rename call and succeeds. -/
theorem run_renameStrategy_witness :
    parseRemote exEnv.defaultRemote "local:c1" = .ok ("local", "c1") ∧
    parseRemote exEnv.defaultRemote "local:c2" = .ok ("local", "c2") ∧
    exEnv.getInstanceServer "local" = .ok exServer ∧
    run exFlags exEnv ["local:c1", "local:c2"] =
      ([.connect "local", .renameCall "c1" "c2"],
        match exServer.renameResult with
        | .error e => .err (.renameError e)
        | .ok _ => .ok) :=
  ⟨by decide, by decide, rfl,
    run_renameStrategy exFlags exEnv "local:c1" "local:c2" "local" "c1" "c2" exServer
      (by decide) (by decide) rfl rfl rfl rfl rfl rfl rfl rfl⟩

/-- C10: a server-side move naming a target cluster member against a
non-clustered source server fails with the target-needs-cluster error right
after connecting: no migration request is ever submitted and the source is
untouched. -/
theorem moveInstance_targetNeedsCluster (flags : MoveFlags) (env : Env)
    (srcRes dstRes : String) (st : Bool) (sr sn r2 dn : String) (srv : Server)
    (hps : parseRemote env.defaultRemote srcRes = .ok (sr, sn))
    (hpd : parseRemote env.defaultRemote dstRes = .ok (r2, dn))
    (hsn : sn ≠ "")
    (hconn : env.getInstanceServer sr = .ok srv)
    (hclu : srv.isClustered = false) (htgt : flags.flagTarget ≠ "") :
    moveInstance flags env srcRes dstRes st = ([.connect sr], .err .targetNeedsCluster) := by
  simp only [moveInstance, hps, hpd]
  rw [if_neg hsn, hconn]
  simp [hclu, htgt]

/-- Witness for C10: a concrete `--target member1` move against a standalone
server stops with the target-needs-cluster error after the connect. -/
theorem moveInstance_targetNeedsCluster_witness :
    parseRemote ({ exEnv with
        getInstanceServer := fun _ => .ok { exServer with isClustered := false } } :
        Env).defaultRemote "local:c1" = .ok ("local", "c1") ∧
    ("c1" : String) ≠ "" ∧
    ({ exEnv with getInstanceServer := fun _ => .ok { exServer with isClustered := false } } :
        Env).getInstanceServer "local" = .ok { exServer with isClustered := false } ∧
    ({ exFlags with flagTarget := "member1" } : MoveFlags).flagTarget ≠ "" ∧
    moveInstance { exFlags with flagTarget := "member1" }
      { exEnv with getInstanceServer := fun _ => .ok { exServer with isClustered := false } }
      "local:c1" "local:c2" true = ([.connect "local"], .err .targetNeedsCluster) :=
  ⟨by decide, by decide, rfl, by decide,
    moveInstance_targetNeedsCluster { exFlags with flagTarget := "member1" }
      { exEnv with getInstanceServer := fun _ => .ok { exServer with isClustered := false } }
      "local:c1" "local:c2" true "local" "c1" "local" "c2"
      { exServer with isClustered := false }
      (by decide) (by decide) (by decide) rfl rfl (by decide)⟩

/-- Counterexample for C9: a local rename to a destination reference with an
empty instance name passes the empty name to the rename call verbatim — the
name used is `""`, not the source name `"c1"`. -/
theorem run_emptyDestName_counterexample :
    run exFlags exEnv ["local:c1", "local:"] =
      ([.connect "local", .renameCall "c1" ""], .ok) ∧
    ("" : String) ≠ "c1" :=
  ⟨by decide, by decide⟩

/-- C9 (amended): on the server-side move path, an empty destination instance
name means "reuse the source name": every migration request submitted by
`moveInstance` for an empty destination name carries the source instance name.
(The local-rename path instead passes the empty name to the rename call
verbatim.) -/
theorem moveInstance_emptyDestName (flags : MoveFlags) (env : Env)
    (srcRes dstRes : String) (st : Bool) (sr sn r2 : String)
    (hps : parseRemote env.defaultRemote srcRes = .ok (sr, sn))
    (hpd : parseRemote env.defaultRemote dstRes = .ok (r2, ""))
    (hsn : sn ≠ "") :
    ∀ nm req, Action.migrateCall nm req ∈ (moveInstance flags env srcRes dstRes st).1 →
      nm = sn ∧ req.name = sn := by
  simp only [moveInstance, hps, hpd]
  rw [if_neg hsn]
  simp only [if_true, ite_true]
  repeat' split
  all_goals intro nm req hmem
  all_goals simp [migratePhase_fst] at hmem
  all_goals obtain ⟨h1, h2⟩ := hmem
  all_goals subst h2
  all_goals simp [h1]

/-- Witness for C9 (amended): concrete inputs discharging the hypotheses, and
a concrete run showing the migration request indeed uses the source name. -/
theorem moveInstance_emptyDestName_witness :
    parseRemote exEnv.defaultRemote "local:c1" = .ok ("local", "c1") ∧
    parseRemote exEnv.defaultRemote "local:" = .ok ("local", "") ∧
    ("c1" : String) ≠ "" ∧
    (∀ nm req,
      Action.migrateCall nm req ∈
        (moveInstance { exFlags with flagStorage := "pool2" } exEnv "local:c1" "local:" true).1 →
      nm = "c1" ∧ req.name = "c1") :=
  ⟨by decide, by decide, by decide,
    moveInstance_emptyDestName { exFlags with flagStorage := "pool2" } exEnv
      "local:c1" "local:" true "local" "c1" "local" (by decide) (by decide) (by decide)⟩

/-- A requested config override against a source server lacking the
`instance_move_config` extension rules the server-side strategy out. -/
theorem isServerSide_false_config (flags : MoveFlags) (env : Env) (sr dr : String)
    (hc : flags.flagConfig ≠ [])
    (hcap : ∀ r srv, env.getInstanceServer r = .ok srv →
      srv.hasExtension "instance_move_config" = false) :
    (isServerSide flags env sr dr).2 = false := by
  unfold isServerSide
  split
  · rfl
  · split
    · rfl
    · cases hq : env.getInstanceServer sr with
      | error e => rfl
      | ok source =>
        have hext := hcap sr source hq
        simp [hext, hc]

/-- When the server-side strategy is ruled out, no migration submission ever
appears in the trace. -/
theorem runParsed_no_migrate (flags : MoveFlags) (env : Env) (a1 a2 sr sn dr dn : String)
    (hsv : (isServerSide flags env sr dr).2 = false) :
    hasMigrate (runParsed flags env a1 a2 sr sn dr dn).1 = false := by
  rcases isServerSide_trace flags env sr dr with hi | hi <;>
    unfold runParsed <;>
    (repeat' split) <;>
    simp_all [hasMigrate_nil, hasMigrate_cons, hasMigrate_append, Action.isMigrate]

/-- When the rename branch does not apply and the server-side strategy is
ruled out, the run takes the client-mediated copy path. -/
theorem runParsed_copy_taken (flags : MoveFlags) (env : Env) (a1 a2 sr sn dr dn : String)
    (hno : ¬(sr = dr ∧ flags.flagTarget = "" ∧ flags.flagStorage = "" ∧
      flags.flagTargetProject = ""))
    (hsv : (isServerSide flags env sr dr).2 = false) :
    hasCopy (runParsed flags env a1 a2 sr sn dr dn).1 = true := by
  rcases isServerSide_trace flags env sr dr with hi | hi <;>
    unfold runParsed <;>
    (repeat' split) <;>
    simp_all [hasCopy_nil, hasCopy_cons, hasCopy_append, Action.isCopy]

/-- The rename branch rejects any requested override before connecting. -/
theorem runParsed_rename_reject (flags : MoveFlags) (env : Env) (a1 a2 sr sn dr dn : String)
    (hcond : sr = dr ∧ flags.flagTarget = "" ∧ flags.flagStorage = "" ∧
      flags.flagTargetProject = "")
    (hover : flags.flagConfig ≠ [] ∨ flags.flagDevice ≠ [] ∨ flags.flagProfile ≠ [] ∨
      flags.flagNoProfiles = true) :
    runParsed flags env a1 a2 sr sn dr dn = ([], .err .localRenameOverride) := by
  unfold runParsed
  rw [if_pos hcond, if_pos hover]

/-- Counterexample for C3: a same-connection request carrying a config
override against a peer lacking `instance_move_config`, with no target member,
storage pool or target project, is rejected by the rename branch with the
local-rename override error — no copy is ever issued, so the request does not
complete via client-mediated copy. -/
theorem run_configOverride_counterexample :
    run { exFlags with flagConfig := ["limits.cpu=2"] } exBareEnv ["local:c1", "local:c2"] =
      ([], .err .localRenameOverride) ∧
    hasCopy (run { exFlags with flagConfig := ["limits.cpu=2"] } exBareEnv
      ["local:c1", "local:c2"]).1 = false :=
  ⟨by decide, by decide⟩

/-- C3 (amended): with a config override and a source peer lacking the
`instance_move_config` capability, the server-side move strategy is never
selected (no migration submission ever happens); when a target member, storage
pool or target project is also requested — so the local-rename branch does not
apply — the request proceeds via the client-mediated copy path, even on the
same connection; but with none of those requested on the same connection the
request is rejected with the local-rename override error instead of being
copied. -/
theorem run_configOverride_amended :
    (∀ flags env args, flags.flagConfig ≠ [] →
      (∀ r srv, env.getInstanceServer r = .ok srv →
        srv.hasExtension "instance_move_config" = false) →
      hasMigrate (run flags env args).1 = false) ∧
    (∀ flags env a1 a2 sr sn dr dn, flags.flagConfig ≠ [] →
      (∀ r srv, env.getInstanceServer r = .ok srv →
        srv.hasExtension "instance_move_config" = false) →
      parseRemote env.defaultRemote a1 = .ok (sr, sn) →
      parseRemote env.defaultRemote a2 = .ok (dr, dn) →
      ¬(flags.flagTarget = "" ∧ flags.flagStorage = "" ∧ flags.flagTargetProject = "") →
      hasCopy (run flags env [a1, a2]).1 = true) ∧
    (∀ flags env a1 a2 sr sn dr dn, flags.flagConfig ≠ [] →
      parseRemote env.defaultRemote a1 = .ok (sr, sn) →
      parseRemote env.defaultRemote a2 = .ok (dr, dn) →
      sr = dr → flags.flagTarget = "" → flags.flagStorage = "" →
      flags.flagTargetProject = "" →
      run flags env [a1, a2] = ([], .err .localRenameOverride)) := by
  refine ⟨?_, ?_, ?_⟩
  · intro flags env args hc hcap
    rcases run_cases flags env args with h | ⟨a1, a2, sr, sn, dr, dn, h⟩
    · rw [h]; rfl
    · rw [h]
      exact runParsed_no_migrate flags env a1 a2 sr sn dr dn
        (isServerSide_false_config flags env sr dr hc hcap)
  · intro flags env a1 a2 sr sn dr dn hc hcap hp1 hp2 hno
    rw [run_two flags env a1 a2 sr sn dr dn hp1 hp2]
    exact runParsed_copy_taken flags env a1 a2 sr sn dr dn
      (fun h => hno ⟨h.2.1, h.2.2.1, h.2.2.2⟩)
      (isServerSide_false_config flags env sr dr hc hcap)
  · intro flags env a1 a2 sr sn dr dn hc hp1 hp2 hsame ht hs hpj
    rw [run_two flags env a1 a2 sr sn dr dn hp1 hp2]
    exact runParsed_rename_reject flags env a1 a2 sr sn dr dn ⟨hsame, ht, hs, hpj⟩ (.inl hc)

/-- Witness for C3 (amended): the three parts applied at concrete inputs — a
bare-server environment with a config override never migrates; with a storage
pool also requested the same-connection request is copied; with nothing else
requested it is rejected by the rename branch. -/
theorem run_configOverride_amended_witness :
    (["limits.cpu=2"] : List String) ≠ [] ∧
    (∀ r srv, exBareEnv.getInstanceServer r = .ok srv →
      srv.hasExtension "instance_move_config" = false) ∧
    hasMigrate (run { exFlags with flagConfig := ["limits.cpu=2"] } exBareEnv
      ["local:c1", "local:c2"]).1 = false ∧
    hasCopy (run { exFlags with flagConfig := ["limits.cpu=2"], flagStorage := "pool2" }
      exBareEnv ["local:c1", "local:c2"]).1 = true ∧
    run { exFlags with flagConfig := ["limits.cpu=2"] } exBareEnv ["local:c1", "local:c2"] =
      ([], .err .localRenameOverride) := by
  have hcap : ∀ r srv, exBareEnv.getInstanceServer r = .ok srv →
      srv.hasExtension "instance_move_config" = false := by
    intro r srv h
    injection h with h2
    subst h2
    rfl
  refine ⟨by decide, hcap, ?_, ?_, ?_⟩
  · exact run_configOverride_amended.1 { exFlags with flagConfig := ["limits.cpu=2"] }
      exBareEnv ["local:c1", "local:c2"] (by decide) hcap
  · exact run_configOverride_amended.2.1
      { exFlags with flagConfig := ["limits.cpu=2"], flagStorage := "pool2" }
      exBareEnv "local:c1" "local:c2" "local" "c1" "local" "c2" (by decide) hcap
      (by decide) (by decide) (by decide)
  · exact run_configOverride_amended.2.2 { exFlags with flagConfig := ["limits.cpu=2"] }
      exBareEnv "local:c1" "local:c2" "local" "c1" "local" "c2" (by decide)
      (by decide) (by decide) rfl rfl rfl rfl

/-- Counterexample for C4: with both `--profile p1` and `--no-profiles` set on
a server-side move (same connection, storage pool requested, all extensions
supported), the run does not fail at all: it connects and submits the
migration with the profiles override applied, so there is no fail-fast
conflict rejection before network calls. -/
theorem run_profileConflict_counterexample :
    run { exFlags with flagProfile := ["p1"], flagNoProfiles := true, flagStorage := "pool2" }
      exEnv ["local:c1", "local:c2"] =
      ([.connect "local", .connect "local",
        .migrateCall "c1"
          { name := "c2", migration := true, instanceOnly := false, pool := "pool2",
            project := "", live := true, profiles := some ["p1"], config := none,
            devices := none }], .ok) := by decide

/-- C4 (amended): setting both the profiles override and noProfiles is not
rejected as a distinct conflict. The rename branch rejects it (like any other
override) with the generic local-rename override error before any network
call; the server-side move path performs no conflict check at all — it
connects and submits the migration with the profiles override taking
precedence and noProfiles ignored. -/
theorem run_profileConflict_amended :
    (∀ flags env a1 a2 sr sn dr dn,
      flags.flagProfile ≠ [] → flags.flagNoProfiles = true →
      parseRemote env.defaultRemote a1 = .ok (sr, sn) →
      parseRemote env.defaultRemote a2 = .ok (dr, dn) →
      sr = dr → flags.flagTarget = "" → flags.flagStorage = "" →
      flags.flagTargetProject = "" →
      run flags env [a1, a2] = ([], .err .localRenameOverride)) ∧
    (∀ flags env srcRes dstRes st sr sn r2 dn srv cfg,
      flags.flagProfile ≠ [] → flags.flagNoProfiles = true → flags.flagDevice = [] →
      parseRemote env.defaultRemote srcRes = .ok (sr, sn) →
      parseRemote env.defaultRemote dstRes = .ok (r2, dn) → sn ≠ "" →
      env.getInstanceServer sr = .ok srv →
      ¬(srv.isClustered = false ∧ flags.flagTarget ≠ "") →
      (if flags.flagConfig ≠ [] then (parseConfigEntries flags.flagConfig).map some
        else .ok none) = .ok cfg →
      ∃ req, (moveInstance flags env srcRes dstRes st).1 =
          [.connect sr, .migrateCall sn req] ∧
        req.profiles = some flags.flagProfile) := by
  constructor
  · intro flags env a1 a2 sr sn dr dn hp hn hp1 hp2 hsame ht hs hpj
    rw [run_two flags env a1 a2 sr sn dr dn hp1 hp2]
    exact runParsed_rename_reject flags env a1 a2 sr sn dr dn ⟨hsame, ht, hs, hpj⟩
      (.inr (.inr (.inl hp)))
  · intro flags env srcRes dstRes st sr sn r2 dn srv cfg hp hn hdev hps hpd hsn hconn hclu hcfg
    simp only [moveInstance, hps, hpd, hconn, hcfg, hdev]
    rw [if_neg hsn, if_neg hclu, if_pos hp]
    simp only [ne_eq, not_true_eq_false, if_false, reduceCtorEq]
    exact ⟨_, by rw [migratePhase_fst]; rfl, rfl⟩

/-- Witness for C4 (amended): both parts applied at concrete inputs — the
rename branch rejects the conflicting pair, and the server-side path submits
the migration with `profiles = ["p1"]`. -/
theorem run_profileConflict_amended_witness :
    (["p1"] : List String) ≠ [] ∧
    run { exFlags with flagProfile := ["p1"], flagNoProfiles := true } exEnv
      ["local:c1", "local:c2"] = ([], .err .localRenameOverride) ∧
    (∃ req,
      (moveInstance { exFlags with flagProfile := ["p1"], flagNoProfiles := true, flagStorage := "pool2" } exEnv "local:c1" "local:c2" true).1 =
        [.connect "local", .migrateCall "c1" req] ∧
      req.profiles = some ["p1"]) := by
  refine ⟨by decide, ?_, ?_⟩
  · exact run_profileConflict_amended.1
      { exFlags with flagProfile := ["p1"], flagNoProfiles := true } exEnv
      "local:c1" "local:c2" "local" "c1" "local" "c2" (by decide) rfl
      (by decide) (by decide) rfl rfl rfl rfl
  · exact run_profileConflict_amended.2
      { exFlags with flagProfile := ["p1"], flagNoProfiles := true, flagStorage := "pool2" }
      exEnv "local:c1" "local:c2" true "local" "c1" "local" "c2" exServer none
      (by decide) rfl rfl (by decide) (by decide) (by decide) rfl
      (by simp [exServer]) rfl

/-- C6 (code bug): a device override naming a device absent from the
instance's expanded devices does not produce an UnknownDevice error — the Go
code reads a nil map from `inst.ExpandedDevices[devName]` and
`maps.Copy(fullDev, dev)` panics on the first assignment, crashing the
process. At the concrete failing input the run ends in the panic outcome,
which is not a returned error of any kind. -/
theorem moveInstance_unknownDevice_panics :
    moveInstance { exFlags with flagDevice := ["foo,bar=baz"] } exEnv
        "local:c1" "local:c2" true =
      ([.connect "local", .getInstanceCall "c1"],
        .panicked "assignment to entry in nil map") ∧
    Outcome.isErr (moveInstance { exFlags with flagDevice := ["foo,bar=baz"] } exEnv
      "local:c1" "local:c2" true).2 = false :=
  ⟨by decide, by decide⟩

/-- C7: for each overridden device present in the instance's expanded devices,
the staged device definition is the expanded map shallow-merged with the
override (`maps.Copy`): on any key the override sets, the override's (last)
value wins; every expanded key the override does not mention is retained
unchanged. -/
theorem stageDevices_merge (expanded deviceMap staged : DevMap) (devName : String)
    (ov full : KV)
    (hnodup : (deviceMap.map Prod.fst).Nodup)
    (hok : stageDevices expanded deviceMap [] = .ok staged)
    (hov : lookupDev deviceMap devName = some ov)
    (hfull : lookupDev expanded devName = some full) :
    lookupDev staged devName = some (mapsCopy full ov) ∧
    (∀ k v, lastLookup ov k = some v → lookupKV (mapsCopy full ov) k = some v) ∧
    (∀ k, lastLookup ov k = none → lookupKV (mapsCopy full ov) k = lookupKV full k) := by
  refine ⟨stageDevices_ok_lookup expanded deviceMap [] staged devName ov full hnodup hok
    hov hfull, ?_, ?_⟩
  · intro k v hk
    rw [lookupKV_mapsCopy, hk]
  · intro k hk
    rw [lookupKV_mapsCopy, hk]

/-- Witness for C7: a concrete override of the `root` device merges onto its
expanded definition, overriding `path` and keeping `type`. -/
theorem stageDevices_merge_witness :
    (([("root", [("size", "10GiB"), ("path", "/mnt")])] : DevMap).map Prod.fst).Nodup ∧
    stageDevices [("root", [("type", "disk"), ("path", "/")]), ("eth0", [("type", "nic")])]
      [("root", [("size", "10GiB"), ("path", "/mnt")])] [] =
      .ok [("root", [("type", "disk"), ("path", "/mnt"), ("size", "10GiB")])] ∧
    lookupDev [("root", [("size", "10GiB"), ("path", "/mnt")])] "root" =
      some [("size", "10GiB"), ("path", "/mnt")] ∧
    lookupDev [("root", [("type", "disk"), ("path", "/")]), ("eth0", [("type", "nic")])]
      "root" = some [("type", "disk"), ("path", "/")] ∧
    (lookupDev [("root", [("type", "disk"), ("path", "/mnt"), ("size", "10GiB")])] "root" =
        some (mapsCopy [("type", "disk"), ("path", "/")] [("size", "10GiB"), ("path", "/mnt")]) ∧
      (∀ k v, lastLookup [("size", "10GiB"), ("path", "/mnt")] k = some v →
        lookupKV (mapsCopy [("type", "disk"), ("path", "/")]
          [("size", "10GiB"), ("path", "/mnt")]) k = some v) ∧
      (∀ k, lastLookup [("size", "10GiB"), ("path", "/mnt")] k = none →
        lookupKV (mapsCopy [("type", "disk"), ("path", "/")]
          [("size", "10GiB"), ("path", "/mnt")]) k =
          lookupKV [("type", "disk"), ("path", "/")] k)) :=
  ⟨by decide, by decide, by decide, by decide,
    stageDevices_merge
      [("root", [("type", "disk"), ("path", "/")]), ("eth0", [("type", "nic")])]
      [("root", [("size", "10GiB"), ("path", "/mnt")])]
      [("root", [("type", "disk"), ("path", "/mnt"), ("size", "10GiB")])]
      "root" [("size", "10GiB"), ("path", "/mnt")] [("type", "disk"), ("path", "/")]
      (by decide) (by decide) (by decide) (by decide)⟩

/-- C8: the `maps.Copy` device-override merge is idempotent — merging the same
override onto a base twice produces the same map (the same value at every key)
as merging it once. -/
theorem mapsCopy_idempotent (base ov : KV) (key : String) :
    lookupKV (mapsCopy (mapsCopy base ov) ov) key = lookupKV (mapsCopy base ov) key := by
  simp only [lookupKV_mapsCopy]
  cases h : lastLookup ov key <;> simp [h]

end IncusMove
